import Mathlib

/-!
Shallow embedding of the presence and message-routing subsystem of the Wisp
chat backend: the Redis-backed presence store (`backend/src/lib/redis.js`),
the Socket.IO connection lifecycle and ephemeral-signal handlers
(`backend/src/lib/socket.js`), and the direct-message delivery step of
`sendMessage` (`backend/src/controllers/message.controllers.js`).

The store is modelled as a record of the four Redis keys the subsystem uses:
`online_users` (a set of user ids, kept as a duplicate-free list mutated by
`sAdd`/`sRem`), `socket_user_map` (hash socketId → userId), the per-user
string keys `user:{id}:socketId` and `user:{id}:lastSeen`.  An `available`
flag models reachability of the backing store: every exported operation in
`redis.js` first calls `getRedisClient` inside a `try` block, and an
unreachable store makes that call throw, landing in the `catch` arm which
logs and returns a safe default.  Wall-clock time (`Date.now()`) is passed
explicitly as a `now : Nat` parameter.  JavaScript truthiness of the string
values read back from the store is modelled explicitly (`none` and the
empty string are falsy).
-/

namespace Wisp

/-- The presence-store state: the Redis keys owned by the subsystem plus the
reachability flag. -/
@[ext]
structure Store where
  available : Bool
  online : List String
  sockMap : String → Option String
  userSock : String → Option String
  lastSeen : String → Option String

/-- `SADD`: add a member to a set (no-op when already present). -/
def sAdd (x : String) (l : List String) : List String :=
  if x ∈ l then l else x :: l

/-- `SREM`: remove a member from a set. -/
def sRem (x : String) (l : List String) : List String :=
  l.filter (fun y => y ≠ x)

/-- `SET` / `HSET` on a string-keyed map. -/
def kvSet (k v : String) (f : String → Option String) : String → Option String :=
  fun q => if q = k then some v else f q

/-- `DEL` / `HDEL` on a string-keyed map. -/
def kvDel (k : String) (f : String → Option String) : String → Option String :=
  fun q => if q = k then none else f q

/-- `getRedisClient` from `redis.js`: returns the client, or throws when the
client was never initialized / the store is unreachable. -/
def getRedisClient (s : Store) : Except String Unit :=
  if s.available then Except.ok () else Except.error "Redis client not initialized"

/-- `setUserOnline(userId)` from `redis.js`: `SADD online_users userId` and
`SET user:{userId}:lastSeen Date.now()`; any error is caught and logged. -/
def setUserOnline (now : Nat) (userId : String) (s : Store) : Store :=
  match getRedisClient s with
  | Except.ok _ =>
      { s with
        online := sAdd userId s.online
        lastSeen := kvSet userId (toString now) s.lastSeen }
  | Except.error _ => s

/-- `setUserOffline(userId)` from `redis.js`: `SREM online_users userId` and
`SET user:{userId}:lastSeen Date.now()`; any error is caught and logged. -/
def setUserOffline (now : Nat) (userId : String) (s : Store) : Store :=
  match getRedisClient s with
  | Except.ok _ =>
      { s with
        online := sRem userId s.online
        lastSeen := kvSet userId (toString now) s.lastSeen }
  | Except.error _ => s

/-- `getOnlineUsers()` from `redis.js`: `SMEMBERS online_users`, or `[]` on
error. -/
def getOnlineUsers (s : Store) : List String :=
  match getRedisClient s with
  | Except.ok _ => s.online
  | Except.error _ => []

/-- `mapSocketToUser(socketId, userId)` from `redis.js`:
`HSET socket_user_map socketId userId` and `SET user:{userId}:socketId
socketId`; any error is caught and logged. -/
def mapSocketToUser (socketId userId : String) (s : Store) : Store :=
  match getRedisClient s with
  | Except.ok _ =>
      { s with
        sockMap := kvSet socketId userId s.sockMap
        userSock := kvSet userId socketId s.userSock }
  | Except.error _ => s

/-- `getUserBySocketId(socketId)` from `redis.js`:
`HGET socket_user_map socketId`, or `null` on error. -/
def getUserBySocketId (socketId : String) (s : Store) : Option String :=
  match getRedisClient s with
  | Except.ok _ => s.sockMap socketId
  | Except.error _ => none

/-- `getSocketIdByUserId(userId)` from `redis.js`:
`GET user:{userId}:socketId`, or `null` on error. -/
def getSocketIdByUserId (userId : String) (s : Store) : Option String :=
  match getRedisClient s with
  | Except.ok _ => s.userSock userId
  | Except.error _ => none

/-- `removeSocketMapping(socketId)` from `redis.js`: reads
`HGET socket_user_map socketId`; when that yields a truthy userId it runs
`HDEL socket_user_map socketId` and `DEL user:{userId}:socketId`
unconditionally (the stored `user:{userId}:socketId` value is never compared
with the socket id being removed); any error is caught and logged. -/
def removeSocketMapping (socketId : String) (s : Store) : Store :=
  match getRedisClient s with
  | Except.ok _ =>
      match s.sockMap socketId with
      | some userId =>
          if userId ≠ "" then
            { s with
              sockMap := kvDel socketId s.sockMap
              userSock := kvDel userId s.userSock }
          else s
      | none => s
  | Except.error _ => s

/-!  Socket layer (`backend/src/lib/socket.js`).  Each handler is a function
from its inputs and the current store to the resulting store together with
the Socket.IO emissions it performs.  The handshake user id is an
`Option String` (`socket.handshake.query.userId` may be `undefined`); the
guard `userId && userId !== 'undefined'` is `isResolvableUserId`.  Durable
group membership lives in MongoDB (`GroupMember`), an external collaborator:
it is passed in as a function (`activeGroups`, `isActiveMember`). -/

/-- One Socket.IO emission performed by a handler or controller. -/
inductive Emission where
  /-- `io.emit("getOnlineUsers", users)` — broadcast to every socket. -/
  | onlineUsersBroadcast (users : List String)
  /-- `io.to(target).emit("userTyping", {senderId, isTyping})`. -/
  | userTyping (target : String) (senderId : Option String) (isTyping : Bool)
  /-- `socket.to(room).emit("userTypingInGroup", ...)` — room minus sender. -/
  | userTypingInGroup (room senderSocket : String) (senderId : Option String) (isTyping : Bool)
  /-- `socket.emit("groupJoined", {groupId})` — reply to the requester. -/
  | groupJoined (target groupId : String)
  /-- `io.to(target).emit("newMessage", message)`. -/
  | newMessage (target : String) (payload : String)
  /-- `io.to(room).emit(event, payload)` — a later broadcast to a room. -/
  | roomEvent (room : String) (event : String) (payload : String)
deriving DecidableEq

/-- Whether an emission reaches the socket `sockId` whose current room
subscriptions are `subscribed` (Socket.IO also auto-subscribes each socket to
the room named by its own id, which is how `io.to(socketId)` targets it). -/
def deliversToSocket (sockId : String) (subscribed : List String) : Emission → Bool
  | Emission.onlineUsersBroadcast _ => true
  | Emission.userTyping target _ _ => target = sockId
  | Emission.userTypingInGroup room senderSocket _ _ =>
      decide (room ∈ subscribed) && senderSocket ≠ sockId
  | Emission.groupJoined target _ => target = sockId
  | Emission.newMessage target _ => target = sockId
  | Emission.roomEvent room _ _ => decide (room ∈ subscribed)

/-- The guard `userId && userId !== 'undefined'` on the handshake identity:
`undefined` and the empty string are falsy in JavaScript. -/
def isResolvableUserId : Option String → Bool
  | some u => u ≠ "" && u ≠ "undefined"
  | none => false

/-- Outcome of the `io.on("connection")` handler: the store after the
registration steps, the rooms the socket joined, and the emissions. -/
structure ConnOutcome where
  store : Store
  rooms : List String
  emissions : List Emission

/-- The `io.on("connection")` handler body from `socket.js`: when the
handshake carries a resolvable user id it maps the socket to the user,
marks the user online, joins the rooms of the user's active group
memberships (`GroupMember.find({userId, status: 'active'})`, passed in as
`activeGroups`), and broadcasts the online-users snapshot; otherwise it does
nothing and the connection stays open anonymously. -/
def handleConnection (now : Nat) (activeGroups : String → List String)
    (userId : Option String) (socketId : String) (s : Store) : ConnOutcome :=
  if isResolvableUserId userId then
    let u := userId.getD ""
    let s1 := mapSocketToUser socketId u s
    let s2 := setUserOnline now u s1
    { store := s2
      rooms := activeGroups u
      emissions := [Emission.onlineUsersBroadcast (getOnlineUsers s2)] }
  else
    { store := s, rooms := [], emissions := [] }

/-- The `socket.on("disconnect")` handler from `socket.js`: under the same
identity guard it removes the socket mapping, marks the user offline and
rebroadcasts the online-users snapshot; an anonymous connection's disconnect
does nothing. -/
def handleDisconnect (now : Nat) (userId : Option String) (socketId : String)
    (s : Store) : Store × List Emission :=
  if isResolvableUserId userId then
    let u := userId.getD ""
    let s1 := removeSocketMapping socketId s
    let s2 := setUserOffline now u s1
    (s2, [Emission.onlineUsersBroadcast (getOnlineUsers s2)])
  else
    (s, [])

/-- The `socket.on("typing")` handler from `socket.js`: resolves the
receiver's socket via `getReceiverSocketId` (an alias of
`getSocketIdByUserId`) and, when the result is truthy, emits one
`userTyping` event to that socket; it never writes to the store. -/
def handleTyping (userId : Option String) (receiverId : String) (isTyping : Bool)
    (s : Store) : Store × List Emission :=
  match getSocketIdByUserId receiverId s with
  | some sid =>
      if sid ≠ "" then (s, [Emission.userTyping sid userId isTyping]) else (s, [])
  | none => (s, [])

/-- The `socket.on("groupTyping")` handler from `socket.js`: broadcasts
`userTypingInGroup` to the room `groupId` excluding the sender's socket.  It
takes no membership collaborator because the source performs no membership
check of any kind. -/
def handleGroupTyping (userId : Option String) (socketId groupId : String)
    (isTyping : Bool) : List Emission :=
  [Emission.userTypingInGroup groupId socketId userId isTyping]

/-- The `socket.on("joinGroup")` handler from `socket.js`: re-validates
current membership (`GroupMember.findOne({groupId, userId, status:
'active'})`, passed in as `isActiveMember`) and only on success joins the
room and replies `groupJoined`; otherwise it falls through silently.  An
anonymous connection's `undefined` user id matches no membership document. -/
def handleJoinGroup (isActiveMember : String → String → Bool)
    (userId : Option String) (socketId groupId : String)
    (rooms : List String) : List String × List Emission :=
  match userId with
  | some u =>
      if isActiveMember u groupId then
        (sAdd groupId rooms, [Emission.groupJoined socketId groupId])
      else
        (rooms, [])
  | none => (rooms, [])

/-- The realtime-delivery step of `sendMessage` in
`message.controllers.js`: after the durable save (collaborator concern) it
resolves the receiver's socket and, when truthy, emits one `newMessage`
event to it; otherwise it emits nothing and still responds 201. -/
def sendMessage (receiverId : String) (payload : String) (s : Store) : List Emission :=
  match getSocketIdByUserId receiverId s with
  | some sid => if sid ≠ "" then [Emission.newMessage sid payload] else []
  | none => []

/-- `delivered` in the spec's `sendDirect(userId, eventName, payload) →
delivered:boolean` interface: whether the send performed a realtime
emission. -/
def delivered (emits : List Emission) : Bool :=
  !emits.isEmpty

/-!  Trace semantics for connection lifecycle events (used for the
single-user connect/disconnect scenarios).  A disconnect event carries the
user id that was captured by the closure of the connection it closes. -/

/-- A transport lifecycle event. -/
inductive NetEvent where
  | conn (userId : Option String) (socketId : String)
  | disc (userId : Option String) (socketId : String)
deriving DecidableEq

/-- Effect of one lifecycle event on the presence store. -/
def stepEvent (now : Nat) (s : Store) : NetEvent → Store
  | NetEvent.conn uid sid => (handleConnection now (fun _ => []) uid sid s).store
  | NetEvent.disc uid sid => (handleDisconnect now uid sid s).1

/-- Run a sequence of lifecycle events against a store. -/
def runTrace (now : Nat) (evs : List NetEvent) (s : Store) : Store :=
  evs.foldl (stepEvent now) s

/-- The empty store of a fresh, reachable Redis instance. -/
def initStore : Store :=
  { available := true
    online := []
    sockMap := fun _ => none
    userSock := fun _ => none
    lastSeen := fun _ => none }

/-!  Concrete stores used by witnesses and counterexamples. -/

/-- A store in the two-device situation: user `U` connected first with socket
`S1` and then with socket `S2`, so `socket_user_map` holds both hash entries
while `user:U:socketId` holds the newer `S2`. -/
def cexStore : Store :=
  { available := true
    online := ["U"]
    sockMap := fun q => if q = "S1" then some "U" else if q = "S2" then some "U" else none
    userSock := fun q => if q = "U" then some "S2" else none
    lastSeen := fun q => if q = "U" then some "5" else none }

/-- A store whose backing Redis instance is unreachable. -/
def offStore : Store :=
  { available := false
    online := []
    sockMap := fun _ => none
    userSock := fun _ => none
    lastSeen := fun _ => none }

/-!  Helper lemmas about the set and key-value primitives. -/

theorem sAdd_idem (x : String) (l : List String) : sAdd x (sAdd x l) = sAdd x l := by
  by_cases hx : x ∈ l <;> simp [sAdd, hx]

theorem kvSet_idem (k v : String) (f : String → Option String) :
    kvSet k v (kvSet k v f) = kvSet k v f := by
  funext q
  by_cases h : q = k <;> simp [kvSet, h]

theorem count_sAdd_self (x : String) (l : List String) (h : l.count x ≤ 1) :
    (sAdd x l).count x = 1 := by
  by_cases hx : x ∈ l
  · have h1 : 1 ≤ l.count x := List.count_pos_iff.mpr hx
    simp only [sAdd, if_pos hx]
    omega
  · have h0 : l.count x = 0 := List.count_eq_zero.mpr hx
    simp [sAdd, hx, List.count_cons, h0]

/-- C1 (counterexample): the claim is false on the code.  In the two-device
store `cexStore` — `socket_user_map` maps `S1` to user `U` while
`user:U:socketId` holds the different socket `S2` — calling
`removeSocketMapping "S1"` does NOT leave `user:U:socketId` unchanged at
`S2`: the while-mapped check `if (userId)` only tests that the hash entry
exists, and the per-user key is then deleted unconditionally. -/
theorem C1_counterexample :
    ¬ (removeSocketMapping "S1" cexStore).userSock "U" = some "S2" := by
  decide

/-- C1 (amended): `removeSocketMapping(S)` is an unconditional delete, not a
compare-and-delete.  Whenever `socket_user_map` still holds an entry
`S → U` (with truthy `U`), the call deletes both the hash entry and the
per-user key `user:U:socketId`, regardless of whether that key currently
holds `S` or a different, fresher socket id. -/
theorem C1_remove_mapping_unconditional (S U : String) (s : Store)
    (hav : s.available = true) (hmap : s.sockMap S = some U) (hU : U ≠ "") :
    (removeSocketMapping S s).userSock U = none ∧
    (removeSocketMapping S s).sockMap S = none := by
  simp [removeSocketMapping, getRedisClient, hav, hmap, hU, kvDel]

/-- C1 (witness): the amended theorem applied to the concrete two-device
store. -/
theorem C1_witness :
    cexStore.available = true ∧ cexStore.sockMap "S1" = some "U" ∧ "U" ≠ "" ∧
    ((removeSocketMapping "S1" cexStore).userSock "U" = none ∧
      (removeSocketMapping "S1" cexStore).sockMap "S1" = none) :=
  ⟨by decide, by decide, by decide,
    C1_remove_mapping_unconditional "S1" "U" cexStore (by decide) (by decide) (by decide)⟩

/-- C3: when the backing store is unreachable (`available = false`, so
`getRedisClient` throws), every presence-store operation degrades instead of
propagating: the four mutators return with the store untouched,
`getOnlineUsers` returns the empty list, and the two resolvers return
`none`. -/
theorem C3_store_unreachable_safe_defaults (now : Nat) (u sid : String) (s : Store)
    (hav : s.available = false) :
    setUserOnline now u s = s ∧
    setUserOffline now u s = s ∧
    mapSocketToUser sid u s = s ∧
    removeSocketMapping sid s = s ∧
    getOnlineUsers s = [] ∧
    getSocketIdByUserId u s = none ∧
    getUserBySocketId sid s = none := by
  simp [setUserOnline, setUserOffline, mapSocketToUser, removeSocketMapping,
    getOnlineUsers, getSocketIdByUserId, getUserBySocketId, getRedisClient, hav]

/-- C3 (witness): the degradation theorem applied to the unreachable store. -/
theorem C3_witness :
    offStore.available = false ∧
    (setUserOnline 0 "u" offStore = offStore ∧
      setUserOffline 0 "u" offStore = offStore ∧
      mapSocketToUser "sid" "u" offStore = offStore ∧
      removeSocketMapping "sid" offStore = offStore ∧
      getOnlineUsers offStore = [] ∧
      getSocketIdByUserId "u" offStore = none ∧
      getUserBySocketId "sid" offStore = none) :=
  ⟨rfl, C3_store_unreachable_safe_defaults 0 "u" "sid" offStore rfl⟩

/-- C4: a direct send whose target user cannot be resolved
(`getSocketIdByUserId` returns `none`, i.e. the user is offline) performs no
realtime emission and yields `delivered = false`; `sendMessage` is a total
function, so it returns normally rather than throwing. -/
theorem C4_offline_send_not_delivered (receiverId payload : String) (s : Store)
    (h : getSocketIdByUserId receiverId s = none) :
    sendMessage receiverId payload s = [] ∧
    delivered (sendMessage receiverId payload s) = false := by
  simp [sendMessage, h, delivered]

/-- C4 (witness): sending to a user unknown to the fresh store. -/
theorem C4_witness :
    getSocketIdByUserId "B" initStore = none ∧
    (sendMessage "B" "hello" initStore = [] ∧
      delivered (sendMessage "B" "hello" initStore) = false) :=
  ⟨by decide, C4_offline_send_not_delivered "B" "hello" initStore (by decide)⟩

/-- C7: the typing relay never touches the store and is drop-or-deliver:
when the receiver does not resolve, the handler emits nothing and the store
(hence every presence key) is returned unchanged; when the receiver resolves
to a truthy socket id, exactly one `userTyping` emission to that socket
occurs and the store is again unchanged. -/
theorem C7_typing_relay_frame (uid : Option String) (receiverId : String)
    (t : Bool) (s : Store) :
    (getSocketIdByUserId receiverId s = none →
      handleTyping uid receiverId t s = (s, [])) ∧
    (∀ sid, getSocketIdByUserId receiverId s = some sid → sid ≠ "" →
      handleTyping uid receiverId t s = (s, [Emission.userTyping sid uid t])) := by
  constructor
  · intro h
    simp [handleTyping, h]
  · intro sid h hs
    simp [handleTyping, h, hs]

/-- C7 (witness): the resolvable branch on the two-device store, where user
`U` resolves to socket `S2`. -/
theorem C7_witness :
    getSocketIdByUserId "U" cexStore = some "S2" ∧ "S2" ≠ "" ∧
    handleTyping (some "A") "U" true cexStore
      = (cexStore, [Emission.userTyping "S2" (some "A") true]) :=
  ⟨by decide, by decide,
    (C7_typing_relay_frame (some "A") "U" true cexStore).2 "S2" (by decide) (by decide)⟩

/-- C9 (counterexample): the claim that `markOffline` clears the
`user:{U}:lastSeen` entry is false on the code: `setUserOffline` writes
`Date.now()` into the key, so after `setUserOffline 7 "U"` on `cexStore`
the entry holds `some "7"` rather than being cleared. -/
theorem C9_counterexample :
    ¬ (setUserOffline 7 "U" cexStore).lastSeen "U" = none := by
  decide

/-- C9 (amended): `setUserOffline(U)` removes `U` from `online_users` and
UPDATES `user:{U}:lastSeen` to the current timestamp (the entry is written,
not cleared). -/
theorem C9_markOffline_removes_and_stamps (now : Nat) (u : String) (s : Store)
    (hav : s.available = true) :
    u ∉ (setUserOffline now u s).online ∧
    (setUserOffline now u s).lastSeen u = some (toString now) := by
  constructor
  · simp [setUserOffline, getRedisClient, hav, sRem, List.mem_filter]
  · simp [setUserOffline, getRedisClient, hav, kvSet]

/-- C9 (witness): the amended theorem on the two-device store. -/
theorem C9_witness :
    cexStore.available = true ∧
    ("U" ∉ (setUserOffline 7 "U" cexStore).online ∧
      (setUserOffline 7 "U" cexStore).lastSeen "U" = some (toString 7)) :=
  ⟨by decide, C9_markOffline_removes_and_stamps 7 "U" cexStore (by decide)⟩

/-- C10: the `groupTyping` handler relays unconditionally — for every
handshake identity (including the anonymous `none`) and every `groupId`, it
produces exactly one `userTypingInGroup` room broadcast; that broadcast
reaches a socket iff the socket is subscribed to the room and is not the
sender. The handler consults no membership collaborator at all (its type has
none), in contrast to `handleJoinGroup`. -/
theorem C10_groupTyping_no_membership_check (uid : Option String)
    (socketId groupId : String) (t : Bool) (target : String)
    (subscribed : List String) :
    handleGroupTyping uid socketId groupId t
      = [Emission.userTypingInGroup groupId socketId uid t] ∧
    (deliversToSocket target subscribed
        (Emission.userTypingInGroup groupId socketId uid t) = true
      ↔ (groupId ∈ subscribed ∧ target ≠ socketId)) := by
  constructor
  · rfl
  · simp [deliversToSocket, ne_comm]

/-- C5: `joinGroup` subscribes and replies iff the requester is an active
member at request time.  With membership, the handler joins the room and
emits `groupJoined`; without it, the request is rejected silently — the
room set and the emission list are unchanged — and, provided the socket was
not already subscribed, no later broadcast to that room reaches the
requester's socket. -/
theorem C5_joinGroup_membership_gate (mem : String → String → Bool)
    (u socketId groupId : String) (rooms : List String) :
    (mem u groupId = true →
      handleJoinGroup mem (some u) socketId groupId rooms
        = (sAdd groupId rooms, [Emission.groupJoined socketId groupId])) ∧
    (mem u groupId = false →
      handleJoinGroup mem (some u) socketId groupId rooms = (rooms, []) ∧
      (groupId ∉ rooms → ∀ ev payload,
        deliversToSocket socketId rooms (Emission.roomEvent groupId ev payload)
          = false)) := by
  constructor
  · intro h
    simp [handleJoinGroup, h]
  · intro h
    refine ⟨by simp [handleJoinGroup, h], ?_⟩
    intro hnot ev payload
    simp [deliversToSocket, hnot]

/-- C5 (witness): a non-member request against an empty room set is rejected
with no subscription, no reply, and no reachable later broadcast. -/
theorem C5_witness :
    (fun _ _ => false : String → String → Bool) "u" "g" = false ∧
    (handleJoinGroup (fun _ _ => false) (some "u") "sock" "g" [] = ([], []) ∧
      ("g" ∉ ([] : List String) → ∀ ev payload,
        deliversToSocket "sock" [] (Emission.roomEvent "g" ev payload) = false)) :=
  ⟨rfl, (C5_joinGroup_membership_gate (fun _ _ => false) "u" "sock" "g" []).2 rfl⟩

/-- C6: a connection whose handshake identity is unresolvable (absent, empty
or the literal string "undefined") is terminal-anonymous: the connection
handler leaves the store untouched, joins no rooms and emits nothing; no
user resolves to a socket any differently afterwards (so the connection
cannot be targeted by direct delivery); and its disconnect also leaves the
store untouched and emits nothing. -/
theorem C6_anonymous_terminal (now : Nat) (groups : String → List String)
    (uid : Option String) (socketId : String) (s : Store)
    (h : isResolvableUserId uid = false) :
    (handleConnection now groups uid socketId s).store = s ∧
    (handleConnection now groups uid socketId s).rooms = [] ∧
    (handleConnection now groups uid socketId s).emissions = [] ∧
    (∀ u, getSocketIdByUserId u (handleConnection now groups uid socketId s).store
        = getSocketIdByUserId u s) ∧
    handleDisconnect now uid socketId s = (s, []) := by
  simp [handleConnection, handleDisconnect, h]

/-- C6 (witness): the handshake carrying the literal string "undefined". -/
theorem C6_witness :
    isResolvableUserId (some "undefined") = false ∧
    ((handleConnection 0 (fun _ => []) (some "undefined") "sock" initStore).store
        = initStore ∧
      (handleConnection 0 (fun _ => []) (some "undefined") "sock" initStore).rooms = [] ∧
      (handleConnection 0 (fun _ => []) (some "undefined") "sock" initStore).emissions
        = [] ∧
      (∀ u, getSocketIdByUserId u
          (handleConnection 0 (fun _ => []) (some "undefined") "sock" initStore).store
        = getSocketIdByUserId u initStore) ∧
      handleDisconnect 0 (some "undefined") "sock" initStore = (initStore, [])) :=
  ⟨by decide, C6_anonymous_terminal 0 (fun _ => []) (some "undefined") "sock" initStore
    (by decide)⟩

/-- C8: the connect-time registration `mapSocketToUser(S2, U)` followed by
`setUserOnline(U)` is last-writer-wins and idempotent: starting from any
reachable store with a prior mapping `U → S1` and at most one occurrence of
`U` in `online_users`, afterwards `U` resolves to `S2`, `U` occurs exactly
once in `online_users`, and repeating the same pair of calls (same
timestamp) leaves the store state unchanged. -/
theorem C8_markOnline_lww_idempotent (now : Nat) (U S1 S2 : String) (s : Store)
    (hav : s.available = true) (_hprev : s.userSock U = some S1)
    (hcount : s.online.count U ≤ 1) :
    getSocketIdByUserId U (setUserOnline now U (mapSocketToUser S2 U s)) = some S2 ∧
    (setUserOnline now U (mapSocketToUser S2 U s)).online.count U = 1 ∧
    setUserOnline now U (mapSocketToUser S2 U
        (setUserOnline now U (mapSocketToUser S2 U s)))
      = setUserOnline now U (mapSocketToUser S2 U s) := by
  refine ⟨?_, ?_, ?_⟩
  · simp [getSocketIdByUserId, setUserOnline, mapSocketToUser, getRedisClient, hav, kvSet]
  · simp only [setUserOnline, mapSocketToUser, getRedisClient, hav, if_true]
    exact count_sAdd_self U s.online hcount
  · simp [setUserOnline, mapSocketToUser, getRedisClient, hav, sAdd_idem, kvSet_idem]

/-- C8 (witness): re-registration of user `U` (previously mapped to `S1`)
with the new socket `S2` on the two-device base store. -/
theorem C8_witness :
    cexStore.available = true ∧ cexStore.userSock "U" = some "S2" ∧
    cexStore.online.count "U" ≤ 1 ∧
    (getSocketIdByUserId "U" (setUserOnline 9 "U" (mapSocketToUser "S3" "U" cexStore))
        = some "S3" ∧
      (setUserOnline 9 "U" (mapSocketToUser "S3" "U" cexStore)).online.count "U" = 1 ∧
      setUserOnline 9 "U" (mapSocketToUser "S3" "U"
          (setUserOnline 9 "U" (mapSocketToUser "S3" "U" cexStore)))
        = setUserOnline 9 "U" (mapSocketToUser "S3" "U" cexStore)) :=
  ⟨by decide, by decide, by decide,
    C8_markOnline_lww_idempotent 9 "U" "S2" "S3" cexStore (by decide) (by decide)
      (by decide)⟩

/-- C2 (counterexample): the multi-device scenario fails on the code.  In the
trace "A connects with S1, A connects with S2, S1 disconnects" from the
empty store, A's stored mapping is NOT still S2 after S1's disconnect:
`removeSocketMapping("S1")` finds the stale hash entry `S1 → A` and deletes
`user:A:socketId` unconditionally. -/
theorem C2_counterexample :
    ¬ getSocketIdByUserId "A"
        (runTrace 0 [NetEvent.conn (some "A") "S1", NetEvent.conn (some "A") "S2",
          NetEvent.disc (some "A") "S1"] initStore)
      = some "S2" := by
  decide

/-- C2 (amended): in the trace "A connects with S1, A connects with S2, S1
disconnects", the stale disconnect of S1 clears A's presence entirely even
though S2 is still open: afterwards A's stored socket mapping is absent and
A is no longer in the online set.  Consequently the settled-sequence law
(mapping = most-recently-connected still-open socket) does not hold for
overlapping connections of one user; a disconnect of any socket still
present in `socket_user_map` erases the user's current mapping. -/
theorem C2_stale_disconnect_clears_presence (now : Nat) (A S1 S2 : String)
    (hA0 : A ≠ "") (hA1 : A ≠ "undefined") :
    getSocketIdByUserId A (runTrace now
        [NetEvent.conn (some A) S1, NetEvent.conn (some A) S2,
          NetEvent.disc (some A) S1] initStore) = none ∧
    A ∉ (runTrace now [NetEvent.conn (some A) S1, NetEvent.conn (some A) S2,
          NetEvent.disc (some A) S1] initStore).online := by
  by_cases h12 : S1 = S2 <;>
    simp [runTrace, stepEvent, handleConnection, handleDisconnect,
      isResolvableUserId, hA0, hA1, mapSocketToUser, setUserOnline,
      setUserOffline, removeSocketMapping, getSocketIdByUserId, getOnlineUsers,
      getRedisClient, initStore, kvSet, kvDel, sAdd, sRem, h12]

/-- C2 (witness): the amended theorem at the concrete trace. -/
theorem C2_witness :
    ("A" : String) ≠ "" ∧ ("A" : String) ≠ "undefined" ∧
    (getSocketIdByUserId "A" (runTrace 0
        [NetEvent.conn (some "A") "S1", NetEvent.conn (some "A") "S2",
          NetEvent.disc (some "A") "S1"] initStore) = none ∧
      "A" ∉ (runTrace 0 [NetEvent.conn (some "A") "S1", NetEvent.conn (some "A") "S2",
          NetEvent.disc (some "A") "S1"] initStore).online) :=
  ⟨by decide, by decide,
    C2_stale_disconnect_clears_presence 0 "A" "S1" "S2" (by decide) (by decide)⟩

end Wisp
